import Mathlib

/-!
Shallow embedding of `runpod_monitor.py` (a Telegram bot monitoring RunPod
instances) together with theorems settling the specification claims about
it.  Python strings are modelled as Lean `String`s; the handful of Python
string primitives the bot uses (slicing, `strip`, `split`, `replace`,
`startswith`, `isalnum`) are modelled as executable functions on the
character list of the string, which matches Python semantics, where a
string is a sequence of code points.  Dictionaries read with `.get` are
modelled with `Option` fields; the truthiness tests of the source
(`if TELEGRAM_CHAT_ID`, `if not state`, `if state.get("volume_id")`) are
modelled by explicit emptiness tests, as noted at each definition.
-/

namespace RunpodMonitor

/-- Whitespace class used by Python `str.strip` and `str.split` with no
arguments: the complete set of code points for which `str.isspace` holds
(U+0009..U+000D, U+001C..U+0020, U+0085, U+00A0, U+1680, U+2000..U+200A,
U+2028, U+2029, U+202F, U+205F and U+3000), as enumerated by scanning the
whole code-point range of CPython. -/
def pyIsSpace (c : Char) : Bool :=
  let n := c.toNat
  (0x09 ≤ n && n ≤ 0x0D) || (0x1C ≤ n && n ≤ 0x20) || n == 0x85 || n == 0xA0 ||
  n == 0x1680 || (0x2000 ≤ n && n ≤ 0x200A) || n == 0x2028 || n == 0x2029 ||
  n == 0x202F || n == 0x205F || n == 0x3000

/-- Characters accepted by Python `str.isalnum`, modelled exactly for
code points below U+0100 (ASCII digits and letters, the Latin-1 letters,
`ª µ º`, the superscript digits `² ³ ¹` and the vulgar fractions
`¼ ½ ¾`), as verified by scanning that whole range of CPython.  Code
points at U+0100 and above are mapped to `false`, an under-approximation
of CPython, which also accepts the alphanumerics of the higher scripts;
the theorems below therefore conclude acceptance only for all-ASCII ids
and conclude rejection only from a character below U+0100, where the
predicate is exact. -/
def pythonIsAlnum (c : Char) : Bool :=
  let n := c.toNat
  (0x30 ≤ n && n ≤ 0x39) || (0x41 ≤ n && n ≤ 0x5A) || (0x61 ≤ n && n ≤ 0x7A) ||
  n == 0xAA || n == 0xB2 || n == 0xB3 || n == 0xB5 || n == 0xB9 || n == 0xBA ||
  (0xBC ≤ n && n ≤ 0xBE) || (0xC0 ≤ n && n ≤ 0xD6) || (0xD8 ≤ n && n ≤ 0xF6) ||
  (0xF8 ≤ n && n ≤ 0xFF)

/-- Split a character list at every occurrence of the separator, keeping
empty pieces, as Python `str.split(sep)` does. -/
def splitAtSep (sep : Char) : List Char → List (List Char)
  | [] => [[]]
  | c :: rest =>
    match splitAtSep sep rest with
    | [] => [[]]
    | cur :: acc => if c = sep then [] :: cur :: acc else (c :: cur) :: acc

/-- Split a character list at every character satisfying the predicate,
keeping empty pieces. -/
def splitAtPred (p : Char → Bool) : List Char → List (List Char)
  | [] => [[]]
  | c :: rest =>
    match splitAtPred p rest with
    | [] => [[]]
    | cur :: acc => if p c then [] :: cur :: acc else (c :: cur) :: acc

/-- Python `s.strip()` with no argument: drop leading and trailing
whitespace. -/
def pyStrip (s : String) : String :=
  ⟨((s.data.dropWhile pyIsSpace).reverse.dropWhile pyIsSpace).reverse⟩

/-- Python `s.split(",")`: split on commas, keeping empty pieces. -/
def pySplitComma (s : String) : List String :=
  (splitAtSep ',' s.data).map String.mk

/-- Python `s.split()` with no argument: split on whitespace runs and drop
the empty pieces. -/
def pySplitWS (s : String) : List String :=
  ((splitAtPred pyIsSpace s.data).filter (fun t => t ≠ [])).map String.mk

/-- Replace every space character by a hyphen, as the Python expression
`s.replace(" ", "-")` does for the one-character arguments used here. -/
def spaceToHyphen (c : Char) : Char :=
  if c = ' ' then '-' else c

/-- Python decimal rendering of an integer, as `str` applied to an `int`
produces (used for `str(chat_id)` and the counters interpolated into
messages). -/
def pyStr (n : Int) : String :=
  toString n

/-- Left-pad a natural number with zeros to four digits, a helper for the
fixed-point formatter below. -/
def pad4 (k : Nat) : String :=
  let s := toString k
  ⟨List.replicate (4 - s.data.length) '0'⟩ ++ s

/-- Python `f"{x:.4f}"` fixed-point formatting with four fractional
digits, modelled on exact rationals: the value is scaled by 10000 and
rounded to the nearest integer (half up), computed on the reduced
numerator and denominator with flooring integer division.  The
tie-breaking and binary-float artifacts of CPython are outside the model;
every value formatted in this development is exact at four decimal
places. -/
def pyFormatF4 (q : ℚ) : String :=
  let n : Int := (20000 * q.num + (q.den : Int)).fdiv (2 * (q.den : Int))
  let sign := if n < 0 then "-" else ""
  let m := n.natAbs
  sign ++ toString (m / 10000) ++ "." ++ pad4 (m % 10000)

/-- Substring containment: the needle occurs contiguously inside the
haystack. -/
def strContains (hay needle : String) : Prop :=
  ∃ pre suf, pre ++ needle.data ++ suf = hay.data

/-! ## Authorization guard (`is_authorized`, source lines 78-92)

The source reads the module configuration `TELEGRAM_CHAT_ID` (a string,
empty or unset meaning no chat restriction) and `get_allowed_users()` (the
set of user ids parsed from `ALLOWED_USER_IDS`, empty meaning no user
restriction); both are passed here as parameters. -/

/-- Authorization check of `is_authorized`: deny when a chat id is
configured and the incoming chat id does not render to it, deny when the
allowed-user set is non-empty and the sender is not in it, allow
otherwise.  The Python truthiness test `if TELEGRAM_CHAT_ID` is the
non-emptiness test on the configured string. -/
def is_authorized (user_id chat_id : Int) (telegram_chat_id : String)
    (allowed_users : List Int) : Bool :=
  if telegram_chat_id ≠ "" ∧ pyStr chat_id ≠ telegram_chat_id then false
  else if allowed_users ≠ [] ∧ user_id ∉ allowed_users then false
  else true

/-! ## Instance-name generation (`generate_pod_name`, source lines 138-142)

The source takes the current time rendered as `MMDD-HHMM`; the rendered
timestamp is a parameter here. -/

/-- Name generation: the template name is cut to its first 20 characters
(Python slice `[:20]`), each space in it is replaced by a hyphen (Python
`replace(" ", "-")`), and the rendered timestamp is appended after a
hyphen. -/
def generate_pod_name (template_name : String) (ts : String) : String :=
  ⟨(template_name.data.take 20).map spaceToHyphen⟩ ++ "-" ++ ts

/-! ## Provider listing calls (`fetch_templates` / `fetch_network_volumes`,
source lines 121-130) -/

/-- JSON values as returned by the provider REST calls. -/
inductive Json where
  | arr (elems : List Json)
  | obj (fields : List (String × Json))
  | str (s : String)
  | num (q : ℚ)
  | boolean (b : Bool)
  | null

/-- Python `isinstance(data, list)` on a JSON value. -/
def Json.isList : Json → Bool
  | .arr _ => true
  | _ => false

/-- The list payload of a JSON array, empty for every other value. -/
def Json.asList : Json → List Json
  | .arr l => l
  | _ => []

/-- Template listing: the transport result of `runpod_rest_get` is either
an error (propagated unmodified, nothing in the source catches it here) or
a JSON payload; a list payload is returned as is and any other payload
becomes the empty list (`data if isinstance(data, list) else []`). -/
def fetch_templates (resp : Except String Json) : Except String (List Json) :=
  resp.map fun data => if data.isList then data.asList else []

/-- Volume listing, with the same shape as the template listing. -/
def fetch_network_volumes (resp : Except String Json) : Except String (List Json) :=
  resp.map fun data => if data.isList then data.asList else []

/-! ## Instance records and the polling report (`format_pod_info`,
`check_pods`, source lines 145-169 and 678-711) -/

/-- Instance record as the bot reads it from the provider: every field
except the identifier is read with `.get` and may be absent.  The uptime
models `pod.get("runtime") or {}` followed by `.get("uptimeInSeconds", 0)`:
a missing runtime object or field is `none`. -/
structure PodRecord where
  id : String
  name : Option String := none
  gpuTypeId : Option String := none
  desiredStatus : Option String := none
  costPerHr : Option ℚ := none
  uptimeInSeconds : Option Nat := none
deriving DecidableEq

/-- Uptime rendering of `format_uptime`: zero (the default for a missing
value) renders as `N/A`, otherwise hours, minutes and seconds. -/
def format_uptime (seconds : Nat) : String :=
  if seconds = 0 then "N/A"
  else toString (seconds / 3600) ++ "h " ++ toString (seconds % 3600 / 60) ++ "m " ++
    toString (seconds % 60) ++ "s"

/-- Per-instance block of `format_pod_info`. -/
def format_pod_info (pod : PodRecord) : String :=
  "  - ID: `" ++ pod.id ++ "`\n" ++
  "  - 이름: " ++ pod.name.getD "N/A" ++ "\n" ++
  "  - GPU: " ++ pod.gpuTypeId.getD "N/A" ++ "\n" ++
  "  - 상태: " ++ pod.desiredStatus.getD "N/A" ++ "\n" ++
  "  - 업타임: " ++ format_uptime (pod.uptimeInSeconds.getD 0) ++ "\n" ++
  "  - 시간당 비용: $" ++ pyFormatF4 (pod.costPerHr.getD 0)

/-- Predicate the source uses to pick the running instances:
`p.get("desiredStatus") == "RUNNING"`. -/
def isRunning (p : PodRecord) : Bool :=
  p.desiredStatus == some "RUNNING"

/-- Report body assembled by `check_pods` for a non-empty instance list:
header with the tick timestamp, total and running counters, one block per
instance, the hourly cost of the running instances summed in iteration
order (present only when some instance is running), and the command
footer. -/
def composeReport (pods : List PodRecord) (now : String) : String :=
  let running_pods := pods.filter isRunning
  let total_cost : ℚ := pods.foldl
    (fun acc p => if isRunning p then acc + p.costPerHr.getD 0 else acc) 0
  "[RunPod 알림] " ++ now ++ "\n\n" ++
  "존재하는 Pod: " ++ pyStr pods.length ++ "개\n\n" ++
  "(실행 중: " ++ pyStr running_pods.length ++ "개)\n\n" ++
  String.join (pods.map fun p => format_pod_info p ++ "\n\n") ++
  (if running_pods.isEmpty then ""
   else "실행 중인 Pod 시간당 비용: $" ++ pyFormatF4 total_cost ++ "\n\n") ++
  "/terminate 또는 /stop 명령으로 관리할 수 있습니다."

/-- One polling tick of `check_pods`: the listing result is either the
instance list or the text of the exception raised.  The returned list
holds the outbound notifications pushed on this tick: none for an empty
listing, the composed report for a non-empty listing, and the error
notification carrying the failure detail when the listing raised. -/
def check_pods (listing : Except String (List PodRecord)) (now : String) :
    List String :=
  match listing with
  | .ok pods => if pods.isEmpty then [] else [composeReport pods now]
  | .error e => ["[오류] Pod 상태 체크 실패: " ++ e]

/-- Specification-side running count: the number of entries whose status
is RUNNING. -/
def specRunningCount (pods : List PodRecord) : Nat :=
  pods.countP isRunning

/-- Specification-side total cost: the sum of `costPerHr` over exactly the
RUNNING entries. -/
def specRunningCost (pods : List PodRecord) : ℚ :=
  ((pods.filter isRunning).map fun p => p.costPerHr.getD 0).sum

/-! ## Creation wizard (`create_command` and `button_callback`,
source lines 335-615)

The per-chat session is the dictionary `context.user_data["create_pod"]`;
an absent key is `none`.  Template and volume JSON fields that the wizard
copies can be strings or arrays of strings in the provider response, so
they are modelled with a dedicated sum type. -/

/-- A JSON field that the wizard treats by `isinstance` dispatch: either a
string or an array of strings. -/
inductive StrOrList where
  | str (s : String)
  | arr (xs : List String)
deriving DecidableEq

/-- Template record as cached by the wizard; every field is read with
`.get` and may be absent. -/
structure Template where
  name : Option String := none
  imageName : Option String := none
  dockerArgs : Option StrOrList := none
  containerDiskInGb : Option ℚ := none
  ports : Option StrOrList := none
deriving DecidableEq

/-- Volume record as cached by the wizard. -/
structure Volume where
  name : Option String := none
  size : Option ℚ := none
  dataCenterId : Option String := none
deriving DecidableEq

/-- Wizard session dictionary: each field models the key of the same name
in `context.user_data["create_pod"]`, `none` meaning the key is absent.
The caches `_templates` and `_volumes` are keyed by `record.get("id")`,
hence the `Option String` keys.  The `volume_id` key, once present, can
itself hold the Python `None` (the "no volume" choice), hence its nested
`Option`. -/
structure Session where
  templates_cache : Option (List (Option String × Template)) := none
  volumes_cache : Option (List (Option String × Volume)) := none
  template_id : Option String := none
  template_name : Option String := none
  image_name : Option String := none
  docker_args : Option StrOrList := none
  container_disk : Option ℚ := none
  ports : Option StrOrList := none
  volume_id : Option (Option String) := none
  data_center_id : Option String := none
  gpu_type : Option String := none
  pod_name : Option String := none
deriving DecidableEq

/-- Dictionary lookup in a cache, as Python `dict.get`: the value at the
first matching key. -/
def cacheGet {α : Type} (cache : List (Option String × α)) (key : Option String) :
    Option α :=
  match cache with
  | [] => none
  | (k, v) :: rest => if k = key then some v else cacheGet rest key

/-- Creation request assembled at the confirm step (source lines 554-582):
the keys of the `config` dictionary passed to `create_pod_api`.  Optional
fields model keys that the source only sometimes inserts. -/
structure PodConfig where
  name : String
  imageName : String
  gpuTypeIds : List String
  gpuCount : Nat
  containerDiskInGb : ℚ
  ports : List String
  templateId : String
  dockerStartCmd : Option (List String) := none
  networkVolumeId : Option String := none
  volumeInGb : ℚ
  dataCenterIds : Option (List String) := none
deriving DecidableEq

/-- Request construction of the confirm step, for a session in which the
directly indexed keys `gpu_type`, `pod_name` and `template_id` are present
(`none` models the `KeyError` the source would raise otherwise).  Ports
given as a string are split on commas, stripped and the empty tokens
dropped; an array passes through.  Startup arguments are inserted only
when truthy: a non-empty string is split on whitespace, a non-empty array
passes through.  A truthy volume id brings a zero disk allocation and,
when a truthy location id is recorded, that location; otherwise the disk
allocation defaults to 20. -/
def build_pod_config (s : Session) : Option PodConfig :=
  match s.gpu_type, s.pod_name, s.template_id with
  | some gt, some pn, some tid =>
    let ports_raw := s.ports.getD (.str "8888/http,22/tcp")
    let ports_list := match ports_raw with
      | .str p => ((pySplitComma p).map pyStrip).filter (fun t => t ≠ "")
      | .arr l => l
    let dockerCmd : Option (List String) := match s.docker_args with
      | some (.str d) => if d = "" then none else some (pySplitWS d)
      | some (.arr l) => if l = [] then none else some l
      | none => none
    let volId : Option String := s.volume_id.getD none
    let volTruthy : Bool := match volId with
      | some v => v ≠ ""
      | none => false
    some {
      name := pn
      imageName := s.image_name.getD ""
      gpuTypeIds := [gt]
      gpuCount := 1
      containerDiskInGb := s.container_disk.getD 50
      ports := ports_list
      templateId := tid
      dockerStartCmd := dockerCmd
      networkVolumeId := if volTruthy then volId else none
      volumeInGb := if volTruthy then 0 else 20
      dataCenterIds :=
        if volTruthy then
          match s.data_center_id with
          | some dc => if dc = "" then none else some [dc]
          | none => none
        else none }
  | _, _, _ => none

/-- Observable outcome of the confirm callback: the first reply edited
into the message (absent when the handler raises before replying) and the
creation request submitted to the provider, if any. -/
structure ConfirmOutcome where
  message : Option String
  createCall : Option PodConfig
deriving DecidableEq

/-- Message shown whenever a wizard callback finds no backing session. -/
def sessionExpiredMessage : String :=
  "세션이 만료되었습니다. /create로 다시 시작해주세요."

/-- Confirm step (`crconfirm`, source lines 543-548 and onward): the
session is popped from the user data first; with no session the expired
message is shown and nothing is submitted; with a session the progress
message is shown and the request built from the popped session is
submitted.  The first component of the result is the session stored after
the callback: always `none`, because `pop` consumed it. -/
def handle_crconfirm (session : Option Session) :
    Option Session × ConfirmOutcome :=
  match session with
  | none => (none, ⟨some sessionExpiredMessage, none⟩)
  | some st =>
    match st.gpu_type with
    | none => (none, ⟨none, none⟩)
    | some gt =>
      (none, ⟨some ("Pod 생성 중... (" ++ gt ++ ")"), build_pod_config st⟩)

/-- Observable outcome of the template-selection callback. -/
inductive CrtplOutcome where
  | notFound
  | volumeMenu (newState : Session)
  | gpuMenu (newState : Session)
deriving DecidableEq

/-- Message shown when the chosen template id is not in the cache. -/
def templateNotFoundMessage : String :=
  "선택한 템플릿을 찾을 수 없습니다."

/-- Template selection (`crtpl_<id>`, source lines 394-459): the session
is read with a `{}` default, the id is resolved against the `_templates`
cache, and a miss replies with `templateNotFoundMessage` and returns with
the stored session untouched.  On a hit the template fields are copied
into the session, the cache is dropped, and the volume list (the fetch
result, passed as a parameter) decides whether the volume menu or the GPU
menu is shown; with no volumes the `volume_id` key is set to the Python
`None`. -/
def handle_crtpl (session : Option Session) (template_id : String)
    (volumes : List (Option String × Volume)) : Option Session × CrtplOutcome :=
  let state := session.getD {}
  let cached := state.templates_cache.getD []
  match cacheGet cached (some template_id) with
  | none => (session, .notFound)
  | some tpl =>
    let st1 : Session := { state with
      template_id := some template_id
      template_name := some (tpl.name.getD (⟨template_id.data.take 8⟩ : String))
      image_name := some (tpl.imageName.getD "")
      docker_args := some (tpl.dockerArgs.getD (.str ""))
      container_disk := some (tpl.containerDiskInGb.getD 50)
      ports := some (tpl.ports.getD (.str "8888/http,22/tcp"))
      templates_cache := none }
    if volumes.isEmpty then
      let st2 := { st1 with volume_id := some none }
      (some st2, .gpuMenu st2)
    else
      let st2 := { st1 with volumes_cache := some volumes }
      (some st2, .volumeMenu st2)

/-- Observable outcome of the volume-selection callback: either the
session-expired reply or the GPU menu, together with the volume label
shown in the reply. -/
inductive CrvolOutcome where
  | expired
  | gpuMenu (newState : Session) (volDisplay : String)
deriving DecidableEq

/-- Volume selection (`crvol_<id>`, source lines 461-495): with no
session the expired reply is shown.  The literal id `none` records the
Python `None` as the volume id.  Any other id is stored as the volume id
whether or not the `_volumes` cache resolves it; only a cache hit can
record a data-center id (when the record carries a truthy one) and use the
volume name as the label, a miss falls back to the truncated id.  The
cache is dropped and the GPU menu follows in every branch. -/
def handle_crvol (session : Option Session) (vol_part : String) :
    Option Session × CrvolOutcome :=
  match session with
  | none => (none, .expired)
  | some st =>
    let (st1, volDisplay) :=
      if vol_part = "none" then
        ({ st with volume_id := some none }, "없음")
      else
        let cached := st.volumes_cache.getD []
        let stA := { st with volume_id := some (some vol_part) }
        match cacheGet cached (some vol_part) with
        | some vol =>
          let disp := vol.name.getD (⟨vol_part.data.take 8⟩ : String)
          match vol.dataCenterId with
          | some dc =>
            if dc ≠ "" then ({ stA with data_center_id := some dc }, disp)
            else (stA, disp)
          | none => (stA, disp)
        | none => (stA, (⟨vol_part.data.take 8⟩ : String))
    let st2 := { st1 with volumes_cache := none }
    (some st2, .gpuMenu st2 volDisplay)

/-! ## Terminate / stop button payloads (`button_callback`,
source lines 617-663) -/

/-- Validation applied to the id portion of a terminate or stop payload:
`if not pod_id or not all(c.isalnum() or c == '-' for c in pod_id)`. -/
def valid_pod_id (s : String) : Bool :=
  !s.data.isEmpty && s.data.all (fun c => pythonIsAlnum c || c == '-')

/-- Message shown when the id portion fails validation. -/
def invalidRequestMessage : String :=
  "잘못된 요청입니다."

/-- Observable outcome of a terminate or stop payload: the rejection
reply, or the provider call issued with the extracted id. -/
inductive TermStopResult where
  | invalid (msg : String)
  | callTerminate (id : String)
  | callStop (id : String)
deriving DecidableEq

/-- Dispatch of the `terminate_<id>` and `stop_<id>` payloads: the prefix
is tested with `startswith`, the id is the remainder of the payload
(Python slice `[len(prefix):]`), and validation decides between the
rejection reply and the provider call.  Payloads with neither prefix fall
through (`none`). -/
def handle_term_stop (d : String) : Option TermStopResult :=
  if "terminate_".data.isPrefixOf d.data then
    let pod_id : String := ⟨d.data.drop 10⟩
    if valid_pod_id pod_id then some (.callTerminate pod_id)
    else some (.invalid invalidRequestMessage)
  else if "stop_".data.isPrefixOf d.data then
    let pod_id : String := ⟨d.data.drop 5⟩
    if valid_pod_id pod_id then some (.callStop pod_id)
    else some (.invalid invalidRequestMessage)
  else none

/-- Specification-side character class `[A-Za-z0-9-]` named in the spec
for terminate and stop ids. -/
def asciiIdChar (c : Char) : Bool :=
  (0x30 ≤ c.toNat && c.toNat ≤ 0x39) || (0x41 ≤ c.toNat && c.toNat ≤ 0x5A) ||
  (0x61 ≤ c.toNat && c.toNat ≤ 0x7A) || c == '-'

/-! ## Helper lemmas -/

/-- A list is a Boolean prefix of itself followed by anything. -/
theorem isPrefixOf_append_self (a b : List Char) : a.isPrefixOf (a ++ b) = true := by
  induction a with
  | nil => simp [List.isPrefixOf]
  | cons x xs ih => simp [List.isPrefixOf, ih]

/-- The terminate prefix never matches a payload starting with the stop
prefix. -/
theorem terminate_not_prefix_of_stop (l : List Char) :
    "terminate_".data.isPrefixOf ("stop_".data ++ l) = false := by
  simp [List.isPrefixOf]

set_option maxHeartbeats 1000000 in
/-- Every character of the ASCII class `[A-Za-z0-9-]` passes the Python
alphanumeric-or-hyphen test. -/
theorem asciiIdChar_sub_python (c : Char) (h : asciiIdChar c = true) :
    (pythonIsAlnum c || c == '-') = true := by
  simp only [asciiIdChar, pythonIsAlnum, Bool.or_eq_true, decide_eq_true_eq,
    Bool.and_eq_true, beq_iff_eq] at h ⊢
  tauto

/-- Sanitized characters are never spaces. -/
theorem spaceToHyphen_ne_space (c : Char) : spaceToHyphen c ≠ ' ' := by
  unfold spaceToHyphen
  split <;> simp_all

/-- Accumulated loop total of `check_pods` equals the starting value plus
the specification-side sum over the running entries. -/
theorem foldl_cost_eq (pods : List PodRecord) (acc : ℚ) :
    pods.foldl (fun a p => if isRunning p then a + p.costPerHr.getD 0 else a) acc
      = acc + specRunningCost pods := by
  induction pods generalizing acc with
  | nil => simp [specRunningCost]
  | cons p t ih =>
    by_cases h : isRunning p
    · simp only [List.foldl_cons, h, if_true, ih, specRunningCost,
        List.filter_cons, List.map_cons, List.sum_cons]
      ring
    · simp only [List.foldl_cons, h, if_false, ih, specRunningCost,
        List.filter_cons, Bool.false_eq_true]

/-- Containment of the middle part of a three-part concatenation. -/
theorem strContains_middle (a b c : String) : strContains (a ++ b ++ c) b :=
  ⟨a.data, c.data, by simp [String.data_append]⟩

/-! ## Claim theorems -/

/-- C1: the authorization check is a pure function of sender id, chat id
and the two configured allow-lists; it allows exactly when the configured
chat id, if non-empty, matches the rendering of the incoming chat id and
the configured user set, if non-empty, contains the sender; with both
configurations absent every sender and chat is allowed. -/
theorem is_authorized_allowlist_table (user_id chat_id : Int)
    (telegram_chat_id : String) (allowed_users : List Int) :
    (is_authorized user_id chat_id telegram_chat_id allowed_users = true ↔
      ((telegram_chat_id ≠ "" → pyStr chat_id = telegram_chat_id) ∧
       (allowed_users ≠ [] → user_id ∈ allowed_users))) ∧
    is_authorized user_id chat_id "" [] = true := by
  constructor
  · unfold is_authorized
    split_ifs with h1 h2 <;> simp_all
  · unfold is_authorized
    simp

/-- C1 witness: the configuration with chat id `123` and no user list
allows sender 999 in chat 123, the example of the specification. -/
theorem is_authorized_allowlist_table_witness :
    is_authorized 999 123 "123" [] = true :=
  (is_authorized_allowlist_table 999 123 "123" []).1.mpr
    ⟨fun _ => by decide, fun h => absurd rfl h⟩

/-- C5 counterexample: a tab character in the template name survives into
the generated instance name, so the result is not free of whitespace of
every kind. -/
theorem generate_pod_name_keeps_tab :
    ((generate_pod_name "a\tb" "0101-0000").data.any Char.isWhitespace) = true ∧
    '\t' ∈ (generate_pod_name "a\tb" "0101-0000").data := by
  constructor <;> decide

/-- C5 (amended): the generated name is the template name truncated to at
most 20 characters with every space replaced by a hyphen, followed by a
hyphen and the rendered timestamp; the sanitized part never contains a
space; and, provided the rendered timestamp has no whitespace, the only
whitespace that can appear in the result consists of the non-space
whitespace characters of the truncated template name, which are kept
as-is. -/
theorem generate_pod_name_sanitizes_spaces (name ts : String) :
    (generate_pod_name name ts).data =
      ((name.data.take 20).map spaceToHyphen) ++ '-' :: ts.data ∧
    ((name.data.take 20).map spaceToHyphen).length ≤ 20 ∧
    ((name.data.take 20).map spaceToHyphen).all (fun c => !(c == ' ')) = true ∧
    (ts.data.all (fun c => !c.isWhitespace) = true →
      (generate_pod_name name ts).data.filter Char.isWhitespace =
        (name.data.take 20).filter (fun c => c.isWhitespace && !(c == ' '))) := by
  have hdata : (generate_pod_name name ts).data =
      ((name.data.take 20).map spaceToHyphen) ++ '-' :: ts.data := by
    show ((⟨(name.data.take 20).map spaceToHyphen⟩ : String) ++ "-" ++ ts).data = _
    simp [String.data_append]
  refine ⟨hdata, ?_, ?_, ?_⟩
  · calc ((name.data.take 20).map spaceToHyphen).length
        = (name.data.take 20).length := List.length_map _ _
      _ ≤ 20 := List.length_take_le 20 name.data
  · rw [List.all_eq_true]
    intro c hc
    obtain ⟨a, _, rfl⟩ := List.mem_map.mp hc
    simpa using spaceToHyphen_ne_space a
  · intro hts
    rw [hdata, List.filter_append]
    have h1 : ((name.data.take 20).map spaceToHyphen).filter Char.isWhitespace
        = (name.data.take 20).filter (fun c => c.isWhitespace && !(c == ' ')) := by
      induction name.data.take 20 with
      | nil => rfl
      | cons a l ih =>
        by_cases ha : a = ' '
        · subst ha
          simp [List.filter_cons, spaceToHyphen, ih]
        · have hmap : spaceToHyphen a = a := by simp [spaceToHyphen, ha]
          by_cases hw : a.isWhitespace
          · simp [List.filter_cons, hmap, hw, ha, ih]
          · simp [List.filter_cons, hmap, hw, ih]
    have h2 : ('-' :: ts.data).filter Char.isWhitespace = [] := by
      rw [List.filter_cons]
      have : ts.data.filter Char.isWhitespace = [] := by
        rw [List.filter_eq_nil_iff]
        intro c hc
        have := (List.all_eq_true.mp hts) c hc
        simpa using this
      simp [this]
    rw [h1, h2, List.append_nil]

/-- C5 witness: at a concrete template name holding a tab and a space, the
whitespace surviving into the generated name is exactly the tab. -/
theorem generate_pod_name_sanitizes_spaces_witness :
    (generate_pod_name "a\tb c" "0101-0000").data.filter Char.isWhitespace =
      ("a\tb c".data.take 20).filter (fun c => c.isWhitespace && !(c == ' ')) :=
  (generate_pod_name_sanitizes_spaces "a\tb c" "0101-0000").2.2.2 (by decide)

/-- C9: for both listing calls, a JSON array payload is returned
unchanged, any non-array payload is replaced by the empty list, and a
transport failure propagates unmodified. -/
theorem fetch_listings_tolerate_non_list (resp : Except String Json) :
    (∀ l, resp = .ok (.arr l) →
      fetch_templates resp = .ok l ∧ fetch_network_volumes resp = .ok l) ∧
    (∀ j, resp = .ok j → j.isList = false →
      fetch_templates resp = .ok [] ∧ fetch_network_volumes resp = .ok []) ∧
    (∀ e, resp = .error e →
      fetch_templates resp = .error e ∧ fetch_network_volumes resp = .error e) := by
  refine ⟨?_, ?_, ?_⟩
  · rintro l rfl
    constructor <;> rfl
  · rintro j rfl hj
    constructor <;> simp [fetch_templates, fetch_network_volumes, Except.map, hj]
  · rintro e rfl
    constructor <;> rfl

/-- C9 witness: concrete payloads for each of the three branches. -/
theorem fetch_listings_tolerate_non_list_witness :
    (fetch_templates (.ok (.arr [.str "t"])) = .ok [.str "t"] ∧
      fetch_network_volumes (.ok (.arr [.str "t"])) = .ok [.str "t"]) ∧
    (fetch_templates (.ok (.obj [])) = .ok [] ∧
      fetch_network_volumes (.ok (.obj [])) = .ok []) ∧
    (fetch_templates (.error "boom") = .error "boom" ∧
      fetch_network_volumes (.error "boom") = .error "boom") :=
  ⟨(fetch_listings_tolerate_non_list (.ok (.arr [.str "t"]))).1 [.str "t"] rfl,
   (fetch_listings_tolerate_non_list (.ok (.obj []))).2.1 (.obj []) rfl rfl,
   (fetch_listings_tolerate_non_list (.error "boom")).2.2 "boom" rfl⟩

/-- C10: a terminate or stop payload whose id portion is empty is
rejected with the invalid-request message, with no provider call, exactly
like a payload whose id is malformed. -/
theorem empty_pod_id_rejected :
    handle_term_stop "terminate_" = some (.invalid invalidRequestMessage) ∧
    handle_term_stop "stop_" = some (.invalid invalidRequestMessage) ∧
    handle_term_stop "terminate_" = handle_term_stop "terminate_@bad@" := by
  refine ⟨?_, ?_, ?_⟩ <;> decide

/-- C3 counterexample: the id `é` consists of one character outside the
class `[A-Za-z0-9-]`, yet the handler issues the provider terminate call
with it, because Python `str.isalnum` accepts it. -/
theorem pod_id_validation_accepts_non_ascii :
    handle_term_stop "terminate_é" = some (.callTerminate "é") ∧
    asciiIdChar 'é' = false ∧ "é".data = ['é'] := by
  refine ⟨?_, ?_, ?_⟩ <;> decide

/-- C3 (amended): the id of a terminate or stop payload is validated with
the Python alphanumeric-or-hyphen test: a non-empty id containing some
character below U+0100 that is neither Python-alphanumeric nor a hyphen
is rejected with the generic invalid-request message and no provider call
is made, while a non-empty id consisting only of characters of
`[A-Za-z0-9-]` proceeds to the provider; the accepted class is however
strictly larger than `[A-Za-z0-9-]`, as the counterexample records.  Both
directions only evaluate the alphanumeric predicate where it is exact:
acceptance is concluded for ASCII ids only, and rejection only from a
sub-U+0100 character, which fails the CPython test no matter what the
rest of the id holds. -/
theorem pod_id_validation_unicode_alnum (id : String) (hne : id.data ≠ []) :
    (id.data.all asciiIdChar = true →
      handle_term_stop ("terminate_" ++ id) = some (.callTerminate id) ∧
      handle_term_stop ("stop_" ++ id) = some (.callStop id)) ∧
    (id.data.any (fun c => c.toNat < 0x100 && !(pythonIsAlnum c || c == '-')) = true →
      handle_term_stop ("terminate_" ++ id) = some (.invalid invalidRequestMessage) ∧
      handle_term_stop ("stop_" ++ id) = some (.invalid invalidRequestMessage)) := by
  have hterm : ("terminate_" ++ id).data = "terminate_".data ++ id.data :=
    String.data_append _ _
  have hstop : ("stop_" ++ id).data = "stop_".data ++ id.data :=
    String.data_append _ _
  have hdropt : ("terminate_".data ++ id.data).drop 10 = id.data := by
    rw [show 10 = "terminate_".data.length from rfl, List.drop_left]
  have hdrops : ("stop_".data ++ id.data).drop 5 = id.data := by
    rw [show 5 = "stop_".data.length from rfl, List.drop_left]
  have heta : (⟨id.data⟩ : String) = id := rfl
  have hemp : id.data.isEmpty = false := by
    cases h' : id.data with
    | nil => exact absurd h' hne
    | cons a l => rfl
  constructor
  · intro hall
    have hvalid : valid_pod_id id = true := by
      have hbody : id.data.all (fun c => pythonIsAlnum c || c == '-') = true := by
        rw [List.all_eq_true]
        intro c hc
        exact asciiIdChar_sub_python c (List.all_eq_true.mp hall c hc)
      simp [valid_pod_id, hemp, hbody]
    constructor
    · unfold handle_term_stop
      rw [hterm, isPrefixOf_append_self, hdropt, heta]
      simp [hvalid]
    · unfold handle_term_stop
      rw [hstop, terminate_not_prefix_of_stop, hdrops, heta]
      simp [isPrefixOf_append_self, hvalid]
  · intro hany
    have hvalid : valid_pod_id id = false := by
      unfold valid_pod_id
      obtain ⟨c, hc, hbad⟩ := List.any_eq_true.mp hany
      have hb2 : (!(pythonIsAlnum c || c == '-')) = true := by
        simp only [Bool.and_eq_true] at hbad
        exact hbad.2
      have hbody : id.data.all (fun c => pythonIsAlnum c || c == '-') = false := by
        rcases Bool.eq_false_or_eq_true (id.data.all fun c => pythonIsAlnum c || c == '-') with h | h
        · exact absurd (List.all_eq_true.mp h c hc) (by simpa using hb2)
        · exact h
      simp [valid_pod_id, hbody]
    constructor
    · unfold handle_term_stop
      rw [hterm, isPrefixOf_append_self, hdropt, heta]
      simp [hvalid]
    · unfold handle_term_stop
      rw [hstop, terminate_not_prefix_of_stop, hdrops, heta]
      simp [isPrefixOf_append_self, hvalid]

/-- C7: one polling tick notifies nothing for an empty listing, pushes
exactly the composed report for a non-empty listing, and pushes exactly
one error notification carrying the failure detail when the listing
fails. -/
theorem check_pods_notification_discipline (listing : Except String (List PodRecord))
    (now : String) :
    (listing = .ok [] → check_pods listing now = []) ∧
    (∀ pods, listing = .ok pods → pods ≠ [] →
      check_pods listing now = [composeReport pods now]) ∧
    (∀ e, listing = .error e →
      check_pods listing now = ["[오류] Pod 상태 체크 실패: " ++ e] ∧
      strContains ("[오류] Pod 상태 체크 실패: " ++ e) e) := by
  refine ⟨?_, ?_, ?_⟩
  · rintro rfl
    rfl
  · rintro pods rfl hne
    have h : pods.isEmpty = false := by
      cases h' : pods with
      | nil => exact absurd h' hne
      | cons a l => rfl
    simp [check_pods, h]
  · rintro e rfl
    refine ⟨rfl, ⟨"[오류] Pod 상태 체크 실패: ".data, [], ?_⟩⟩
    simp [String.data_append]

/-- Concrete RUNNING instance used by the polling witnesses. -/
def podRunningA : PodRecord :=
  { id := "pod-1", name := some "train", desiredStatus := some "RUNNING",
    costPerHr := some 2 }

/-- Concrete non-running instance used by the polling witnesses. -/
def podExitedB : PodRecord :=
  { id := "pod-2", desiredStatus := some "EXITED", costPerHr := some 7 }

/-- C7 witness: the three branches at concrete listings. -/
theorem check_pods_notification_discipline_witness :
    check_pods (.ok []) "t" = [] ∧
    check_pods (.ok [podRunningA]) "t" = [composeReport [podRunningA] "t"] ∧
    (check_pods (.error "boom") "t" = ["[오류] Pod 상태 체크 실패: " ++ "boom"] ∧
      strContains ("[오류] Pod 상태 체크 실패: " ++ "boom") "boom") :=
  ⟨(check_pods_notification_discipline (.ok []) "t").1 rfl,
   (check_pods_notification_discipline (.ok [podRunningA]) "t").2.1
     [podRunningA] rfl (by simp),
   (check_pods_notification_discipline (.error "boom") "t").2.2 "boom" rfl⟩

/-- C8: the composed report carries the running counter equal to the
number of entries whose status is RUNNING and, whenever some entry is
running, the total-cost line showing the sum of `costPerHr` over exactly
the RUNNING entries formatted to four decimal places. -/
theorem report_running_count_and_cost (pods : List PodRecord) (now : String) :
    strContains (composeReport pods now)
      ("(실행 중: " ++ pyStr (specRunningCount pods) ++ "개)") ∧
    (specRunningCount pods ≠ 0 →
      strContains (composeReport pods now)
        ("실행 중인 Pod 시간당 비용: $" ++ pyFormatF4 (specRunningCost pods))) := by
  have hcount : specRunningCount pods = (pods.filter isRunning).length :=
    List.countP_eq_length_filter _ _
  have hcost : pods.foldl
      (fun a p => if isRunning p then a + p.costPerHr.getD 0 else a) 0
      = specRunningCost pods := by
    simpa using foldl_cost_eq pods 0
  constructor
  · have hdecomp : composeReport pods now =
        ("[RunPod 알림] " ++ now ++ "\n\n" ++ "존재하는 Pod: " ++
          pyStr pods.length ++ "개\n\n")
        ++ ("(실행 중: " ++ pyStr (specRunningCount pods) ++ "개)")
        ++ ("\n\n" ++
            String.join (pods.map fun p => format_pod_info p ++ "\n\n") ++
            (if (pods.filter isRunning).isEmpty then ""
             else "실행 중인 Pod 시간당 비용: $" ++
               pyFormatF4 (pods.foldl
                 (fun a p => if isRunning p then a + p.costPerHr.getD 0 else a) 0)
               ++ "\n\n") ++
            "/terminate 또는 /stop 명령으로 관리할 수 있습니다.") := by
      apply String.ext
      simp [composeReport, hcount, String.data_append, List.append_assoc]
    rw [hdecomp]
    exact strContains_middle _ _ _
  · intro hR
    have hne : (pods.filter isRunning).isEmpty = false := by
      rw [hcount] at hR
      cases h' : pods.filter isRunning with
      | nil => rw [h'] at hR; exact absurd rfl hR
      | cons a l => rfl
    have hdecomp : composeReport pods now =
        ("[RunPod 알림] " ++ now ++ "\n\n" ++ "존재하는 Pod: " ++
          pyStr pods.length ++ "개\n\n" ++ "(실행 중: " ++
          pyStr ((pods.filter isRunning).length) ++ "개)\n\n" ++
          String.join (pods.map fun p => format_pod_info p ++ "\n\n"))
        ++ ("실행 중인 Pod 시간당 비용: $" ++ pyFormatF4 (specRunningCost pods))
        ++ ("\n\n" ++ "/terminate 또는 /stop 명령으로 관리할 수 있습니다.") := by
      apply String.ext
      simp [composeReport, hne, hcost, String.data_append, List.append_assoc]
    rw [hdecomp]
    exact strContains_middle _ _ _

/-- C8 witness: at a concrete two-instance listing with one RUNNING entry,
the report contains the running counter and the cost line produced by the
specification-side count and sum. -/
theorem report_running_count_and_cost_witness :
    strContains (composeReport [podRunningA, podExitedB] "t")
      ("(실행 중: " ++ pyStr (specRunningCount [podRunningA, podExitedB]) ++ "개)") ∧
    strContains (composeReport [podRunningA, podExitedB] "t")
      ("실행 중인 Pod 시간당 비용: $" ++
        pyFormatF4 (specRunningCost [podRunningA, podExitedB])) :=
  ⟨(report_running_count_and_cost [podRunningA, podExitedB] "t").1,
   (report_running_count_and_cost [podRunningA, podExitedB] "t").2 (by decide)⟩

/-- C2: the confirm step consumes the session unconditionally, so of two
consecutive confirm callbacks on the same chat the second finds no
session, replies with the session-expired message and submits no creation
request. -/
theorem crconfirm_consumes_session (sess : Option Session) :
    (handle_crconfirm sess).1 = none ∧
    (handle_crconfirm (handle_crconfirm sess).1).2.message = some sessionExpiredMessage ∧
    (handle_crconfirm (handle_crconfirm sess).1).2.createCall = none := by
  have h1 : (handle_crconfirm sess).1 = none := by
    rcases sess with _ | st
    · rfl
    · rcases h : st.gpu_type with _ | gt <;> simp [handle_crconfirm, h]
  refine ⟨h1, ?_, ?_⟩ <;> rw [h1] <;> rfl

/-- Completed session used by the confirm and creation-request
witnesses. -/
def sessionFull : Session :=
  { template_id := some "tid-1", template_name := some "tpl",
    image_name := some "img:latest",
    docker_args := some (.str "python main.py --port 80"),
    container_disk := some 40, ports := some (.str "8888/http, 22/tcp"),
    volume_id := some (some "vol-1"), data_center_id := some "EU-RO-1",
    gpu_type := some "NVIDIA RTX A4500", pod_name := some "tpl-0101-0000" }

/-- C2 witness: two consecutive confirms starting from a concrete
completed session; the second submits nothing and shows the expired
message. -/
theorem crconfirm_consumes_session_witness :
    (handle_crconfirm (handle_crconfirm (some sessionFull)).1).2.message =
      some sessionExpiredMessage ∧
    (handle_crconfirm (handle_crconfirm (some sessionFull)).1).2.createCall = none :=
  ⟨(crconfirm_consumes_session (some sessionFull)).2.1,
   (crconfirm_consumes_session (some sessionFull)).2.2⟩

/-- C4: for every completed session (the directly indexed keys present),
the built creation request has GPU count 1; string ports split on commas
into trimmed non-empty tokens while array ports pass through; non-empty
string startup arguments split on whitespace while non-empty arrays pass
through; a non-empty volume id is attached with a zero disk allocation
and, when a non-empty location id is recorded, that location; and with no
volume id the disk allocation defaults to 20. -/
theorem build_pod_config_normalization (s : Session) (gt pn tid : String)
    (hg : s.gpu_type = some gt) (hp : s.pod_name = some pn)
    (ht : s.template_id = some tid) :
    (build_pod_config s).map PodConfig.gpuCount = some 1 ∧
    (∀ p, s.ports = some (.str p) →
      (build_pod_config s).map PodConfig.ports =
        some (((pySplitComma p).map pyStrip).filter (fun t => t ≠ ""))) ∧
    (∀ l, s.ports = some (.arr l) →
      (build_pod_config s).map PodConfig.ports = some l) ∧
    (∀ d, s.docker_args = some (.str d) → d ≠ "" →
      (build_pod_config s).map PodConfig.dockerStartCmd = some (some (pySplitWS d))) ∧
    (∀ l, s.docker_args = some (.arr l) → l ≠ [] →
      (build_pod_config s).map PodConfig.dockerStartCmd = some (some l)) ∧
    (∀ v, s.volume_id = some (some v) → v ≠ "" →
      (build_pod_config s).map PodConfig.networkVolumeId = some (some v) ∧
      (build_pod_config s).map PodConfig.volumeInGb = some 0 ∧
      (∀ dc, s.data_center_id = some dc → dc ≠ "" →
        (build_pod_config s).map PodConfig.dataCenterIds = some (some [dc]))) ∧
    (s.volume_id.getD none = none →
      (build_pod_config s).map PodConfig.networkVolumeId = some none ∧
      (build_pod_config s).map PodConfig.volumeInGb = some 20) := by
  refine ⟨?_, ?_, ?_, ?_, ?_, ?_, ?_⟩
  · simp [build_pod_config, hg, hp, ht]
  · intro p hps
    simp [build_pod_config, hg, hp, ht, hps]
  · intro l hps
    simp [build_pod_config, hg, hp, ht, hps]
  · intro d hd hdne
    simp [build_pod_config, hg, hp, ht, hd, hdne]
  · intro l hd hdne
    simp [build_pod_config, hg, hp, ht, hd, hdne]
  · intro v hv hvne
    refine ⟨?_, ?_, ?_⟩
    · simp [build_pod_config, hg, hp, ht, hv, hvne]
    · simp [build_pod_config, hg, hp, ht, hv, hvne]
    · intro dc hdc hdcne
      simp [build_pod_config, hg, hp, ht, hv, hvne, hdc, hdcne]
  · intro hnov
    constructor <;> simp [build_pod_config, hg, hp, ht, hnov]

/-- C4 witness: the request built from a concrete completed session. -/
theorem build_pod_config_normalization_witness :
    (build_pod_config sessionFull).map PodConfig.gpuCount = some 1 ∧
    (build_pod_config sessionFull).map PodConfig.ports =
      some (((pySplitComma "8888/http, 22/tcp").map pyStrip).filter (fun t => t ≠ "")) ∧
    (build_pod_config sessionFull).map PodConfig.dockerStartCmd =
      some (some (pySplitWS "python main.py --port 80")) ∧
    (build_pod_config sessionFull).map PodConfig.volumeInGb = some 0 ∧
    (build_pod_config sessionFull).map PodConfig.dataCenterIds = some (some ["EU-RO-1"]) :=
  have h := build_pod_config_normalization sessionFull "NVIDIA RTX A4500"
    "tpl-0101-0000" "tid-1" rfl rfl rfl
  ⟨h.1, h.2.1 _ rfl, h.2.2.2.1 _ rfl (by decide),
   (h.2.2.2.2.2.1 "vol-1" rfl (by decide)).2.1,
   (h.2.2.2.2.2.1 "vol-1" rfl (by decide)).2.2 "EU-RO-1" rfl (by decide)⟩

/-- C6 (amended): a template selection whose id is absent from the
template cache terminates the wizard run with the template-not-found
reply and leaves the stored session untouched; a volume selection whose
id is absent from the volume cache is NOT treated as an error: the
unknown id is stored as the session volume id, the label falls back to
the truncated id, no data-center id is recorded, and the wizard proceeds
to the GPU menu. -/
theorem template_miss_errors_volume_miss_proceeds
    (session : Option Session) (template_id : String)
    (volumes : List (Option String × Volume)) (st : Session) (vol_part : String) :
    (cacheGet ((session.getD {}).templates_cache.getD []) (some template_id) = none →
      handle_crtpl session template_id volumes = (session, .notFound)) ∧
    (vol_part ≠ "none" →
      cacheGet (st.volumes_cache.getD []) (some vol_part) = none →
      handle_crvol (some st) vol_part =
        (some { st with volume_id := some (some vol_part), volumes_cache := none },
         .gpuMenu { st with volume_id := some (some vol_part), volumes_cache := none }
           (⟨vol_part.data.take 8⟩ : String))) := by
  constructor
  · intro h
    simp [handle_crtpl, h]
  · intro hne h
    simp [handle_crvol, hne, h]

/-- Session captured between the volume menu and the volume choice, used
by the C6 theorems: its cache holds only the volume `vol-1`. -/
def sessionMidVol : Session :=
  { template_id := some "tid-1", template_name := some "tpl",
    image_name := some "img", docker_args := some (.str ""),
    container_disk := some 50, ports := some (.str "8888/http,22/tcp"),
    volumes_cache := some [(some "vol-1",
      { name := some "Data", size := some 100, dataCenterId := some "EU-RO-1" })] }

/-- Session after the unknown choice `vol-404`: the unknown id stored as
the volume id, cache dropped. -/
def sessionMidVol404 : Session :=
  { sessionMidVol with volume_id := some (some "vol-404"), volumes_cache := none }

/-- Session after the unknown choice `vol-999`. -/
def sessionMidVol999 : Session :=
  { sessionMidVol with volume_id := some (some "vol-999"), volumes_cache := none }

/-- C6 counterexample: selecting the volume id `vol-404`, absent from the
cache, is not treated as a validation error and does not terminate the
wizard run: the unknown id is stored as the volume id and the GPU menu is
shown. -/
theorem crvol_unknown_id_proceeds :
    handle_crvol (some sessionMidVol) "vol-404" =
      (some sessionMidVol404, .gpuMenu sessionMidVol404 "vol-404") ∧
    (handle_crvol (some sessionMidVol) "vol-404").2 ≠ .expired := by
  constructor
  · rfl
  · decide

/-- C6 witness: a template-id miss terminates with the not-found reply at
a concrete session, and a volume-id miss proceeds at a concrete
session. -/
theorem template_miss_errors_volume_miss_proceeds_witness :
    handle_crtpl (some sessionMidVol) "tid-404" [] = (some sessionMidVol, .notFound) ∧
    handle_crvol (some sessionMidVol) "vol-999" =
      (some sessionMidVol999, .gpuMenu sessionMidVol999 "vol-999") :=
  ⟨(template_miss_errors_volume_miss_proceeds (some sessionMidVol) "tid-404" []
      sessionMidVol "vol-999").1 rfl,
   (template_miss_errors_volume_miss_proceeds (some sessionMidVol) "tid-404" []
      sessionMidVol "vol-999").2 (by decide) rfl⟩

/-- C3 witness: a well-formed ASCII id reaches the provider on both
payload kinds, and an id holding a space is rejected on both. -/
theorem pod_id_validation_unicode_alnum_witness :
    (handle_term_stop ("terminate_" ++ "abc-123") = some (.callTerminate "abc-123") ∧
      handle_term_stop ("stop_" ++ "abc-123") = some (.callStop "abc-123")) ∧
    (handle_term_stop ("terminate_" ++ "a b") = some (.invalid invalidRequestMessage) ∧
      handle_term_stop ("stop_" ++ "a b") = some (.invalid invalidRequestMessage)) :=
  ⟨(pod_id_validation_unicode_alnum "abc-123" (by decide)).1 (by decide),
   (pod_id_validation_unicode_alnum "a b" (by decide)).2 (by decide)⟩

end RunpodMonitor
